import Mathlib

/-!
A shallow embedding of the superpaper video-wallpaper core
(src/superpaper/video_engine.py, src/superpaper/video_wallpaper_window.py,
src/superpaper/video_daemon.py).

Modelling conventions:
* Screen geometry (NSScreen frames, canvas bounds, crop rectangles) is modelled
  over `ℚ`.  All geometric inputs appearing in the spec are exactly
  representable, and the operations involved (min, max, +, -, /) are exact on
  them, so `ℚ` reflects the CPython float computation faithfully on these
  inputs.  Python raises `ZeroDivisionError` on float division by zero; a
  division that Python would refuse is modelled by `Option`/a dedicated error
  constructor, never by Lean's `x / 0 = 0` convention.
* The file system is a set of existing paths (`FS`), queried the way the code
  queries `os.path.exists`.
* Opaque effectful calls (AVFoundation frame extraction, `os.kill`) are
  parametrised by oracles describing their outcome, and the calls themselves
  are recorded as effects where a claim is about them.
-/

/-- An `NSScreen` frame / window frame: origin `(x, y)` and size `(w, h)`
in virtual-desktop units (`screen.frame()` in the sources). -/
structure Frame where
  x : ℚ
  y : ℚ
  w : ℚ
  h : ℚ
deriving DecidableEq

/-- A normalized crop rectangle `(x, y, width, height)`, each component the
code computes in `[0,1]` (video_wallpaper_window.py lines 417-422). -/
structure CropRect where
  x : ℚ
  y : ℚ
  w : ℚ
  h : ℚ
deriving DecidableEq

/-- The bounding canvas accumulated by `__start_spanned_wallpaper`
(video_wallpaper_window.py lines 365-394): `min_x`, `min_y`, `max_x`, `max_y`. -/
structure Canvas where
  min_x : ℚ
  min_y : ℚ
  max_x : ℚ
  max_y : ℚ
deriving DecidableEq

/-- The AVFoundation video gravity constants used by both window classes. -/
inductive VideoGravity where
  | resizeAspectFill
  | resizeAspect
  | resize
deriving DecidableEq

/-- File system abstraction: the set of paths that exist on disk. -/
structure FS where
  files : List String
deriving DecidableEq

/-- `os.path.exists` on the modelled file system. -/
def FS.pathExists (fs : FS) (p : String) : Bool :=
  fs.files.contains p

/-- Creating a file at path `p` (e.g. a finalized PNG destination). -/
def FS.addFile (fs : FS) (p : String) : FS :=
  ⟨p :: fs.files⟩

/-- The characters of a path after the last path separator
(the final path component, as `pathlib.PurePath.name`). -/
def afterLastSlash (cs : List Char) : List Char :=
  cs.foldl (fun acc c => if c = '/' then [] else acc ++ [c]) []

/-- `pathlib` stem rule on a final component: drop the last suffix,
where a suffix is a trailing part starting at a dot whose index `i`
satisfies `0 < i < len - 1`. -/
def stemChars (name : List Char) : List Char :=
  let n := name.length
  match ((List.range n).filter (fun i => name.getD i ' ' = '.')).getLast? with
  | some i => if 0 < i ∧ i < n - 1 then name.take i else name
  | none => name

/-- `pathlib.Path(p).stem`: the final path component without its suffix
(video_engine.py line 200). -/
def stem (p : String) : String :=
  String.mk (stemChars (afterLastSlash p.toList))

/-- The cache path `os.path.join(static_cache_path, video_name + ".png")`
built by `get_or_generate_static_frame` (video_engine.py lines 200-201). -/
def static_path (cacheDir videoPath : String) : String :=
  cacheDir ++ "/" ++ stem videoPath ++ ".png"

/-- `VideoEngine.get_or_generate_static_frame` (video_engine.py lines 189-215).
`gen` is the oracle for whether `generate_static_frame` succeeds on a given
video (AVFoundation asset load / frame extraction / PNG encode).  Returns the
result path (`""` on generation failure, as the source does), the file system
afterwards (a successful generation creates the PNG), and the number of times
`generate_static_frame` was invoked. -/
def get_or_generate_static_frame (gen : String → Bool) (cacheDir : String)
    (fs : FS) (videoPath : String) : String × FS × Nat :=
  let sp := static_path cacheDir videoPath
  if fs.pathExists sp then
    (sp, fs, 0)
  else if gen videoPath then
    (sp, fs.addFile sp, 1)
  else
    ("", fs, 1)

/-- The scale-mode dispatch in the daemon's `setupVideoPlayer`
(video_daemon.py lines 98-104): `fill` is aspect-fill, `fit` is aspect,
anything else is plain resize. -/
def daemon_video_gravity (scale_mode : String) : VideoGravity :=
  if scale_mode = "fill" then VideoGravity.resizeAspectFill
  else if scale_mode = "fit" then VideoGravity.resizeAspect
  else VideoGravity.resize

/-- The observable configuration of an `SPVideoWallpaperWindow` after a
successful `setupWithVideo_screen_volume_scaleMode_cropRect_`. -/
structure SPWindow where
  video_path : String
  screen : Frame
  gravity : VideoGravity
  crop_info : Option CropRect
  layer_frame : Frame
  volume : ℚ
deriving DecidableEq

/-- `SPVideoWallpaperWindow.createWithVideo_screen_volume_scaleMode_cropRect_`
(video_wallpaper_window.py lines 39-235): fails (returns `none`) when the
video file does not exist (line 91); otherwise configures the window.  The
player layer's video gravity is set unconditionally to
`AVLayerVideoGravityResizeAspectFill` (line 167) — `scale_mode` is not
consulted on this path.  With a crop rect, the layer frame is the canvas
rescaling of lines 176-195, guarding `width_norm > 0` / `height_norm > 0`;
without one, the layer fills the window (line 207). -/
def createWithVideo (fs : FS) (video_path : String) (screen : Frame)
    (volume : ℚ) (scale_mode : String) (crop_rect : Option CropRect) :
    Option SPWindow :=
  if fs.pathExists video_path = false then none
  else
    let _ := scale_mode
    let layer_frame : Frame :=
      match crop_rect with
      | some c =>
        let window_width := screen.w
        let window_height := screen.h
        let canvas_width := if c.w > 0 then window_width / c.w else window_width
        let canvas_height := if c.h > 0 then window_height / c.h else window_height
        ⟨-(c.x) * canvas_width, -(c.y) * canvas_height, canvas_width, canvas_height⟩
      | none => ⟨0, 0, screen.w, screen.h⟩
    some ⟨video_path, screen, VideoGravity.resizeAspectFill, crop_rect,
          layer_frame, volume⟩

/-- Display enumeration environment: `NSScreen.screens()` as a list of frames
indexed by display index, and `NSScreen.mainScreen()`. -/
structure Env where
  screens : List Frame
  main : Frame

/-- The in-range screens collected by `__start_spanned_wallpaper`
(video_wallpaper_window.py lines 370-394): indices `display_id` with
`display_id >= len(screens)` are skipped with a warning. -/
def validScreens (env : Env) (display_ids : List Nat) : List (Frame × Nat) :=
  display_ids.filterMap (fun display_id =>
    (env.screens[display_id]?).map (fun s => (s, display_id)))

/-- Fold computing a running minimum of `g` over a list, as the
`min_x = min(min_x, frame.origin.x)` accumulation does. -/
def foldMin (g : Frame → ℚ) (a : ℚ) (l : List Frame) : ℚ :=
  l.foldl (fun b fr => min b (g fr)) a

/-- Fold computing a running maximum of `g` over a list. -/
def foldMax (g : Frame → ℚ) (a : ℚ) (l : List Frame) : ℚ :=
  l.foldl (fun b fr => max b (g fr)) a

/-- The canvas accumulation of `__start_spanned_wallpaper`
(video_wallpaper_window.py lines 365-394, 400-402).  The source initialises
the four accumulators to `±inf` and folds over the collected frames; for a
non-empty list that is the same as folding from the first frame (min/max are
associative and commutative), and the empty case is the source's
`if not screens` failure branch, so it is `none` here. -/
def computeCanvas : List Frame → Option Canvas
  | [] => none
  | f :: fs =>
    some ⟨foldMin Frame.x f.x fs,
          foldMin Frame.y f.y fs,
          foldMax (fun fr => fr.x + fr.w) (f.x + f.w) fs,
          foldMax (fun fr => fr.y + fr.h) (f.y + f.h) fs⟩

/-- The per-display crop computation of `__start_spanned_wallpaper`
(video_wallpaper_window.py lines 417-422):
`crop_x = (frame.origin.x - min_x) / canvas_width` and analogously for
`y, w, h`.  The source divides unconditionally; when the canvas width or
height is zero CPython raises `ZeroDivisionError`, modelled here as `none`. -/
def computeCropRect (frame : Frame) (c : Canvas) : Option CropRect :=
  let canvas_width := c.max_x - c.min_x
  let canvas_height := c.max_y - c.min_y
  if canvas_width = 0 ∨ canvas_height = 0 then none
  else
    some ⟨(frame.x - c.min_x) / canvas_width,
          (frame.y - c.min_y) / canvas_height,
          frame.w / canvas_width,
          frame.h / canvas_height⟩

/-- Outcome of a manager-level start: either a normal return carrying the
created windows and the boolean result, or a propagated `ZeroDivisionError`
from the crop computation. -/
inductive SpanOutcome where
  | ok (windows : List SPWindow) (success : Bool)
  | zeroDivision
deriving DecidableEq

/-- `SPVideoWallpaperManager.__start_spanned_wallpaper`
(video_wallpaper_window.py lines 336-445): collect in-range screens, fail
(`False`, no windows) when none remain, compute the bounding canvas, then one
crop rect and one window per screen; the boolean result is
`success_count > 0`.  A zero-extent canvas makes the first crop division
raise, before any window is created. -/
def start_spanned_wallpaper (fs : FS) (env : Env) (video_path : String)
    (display_ids : List Nat) (volume : ℚ) (scale_mode : String) :
    SpanOutcome :=
  match computeCanvas ((validScreens env display_ids).map Prod.fst) with
  | none => SpanOutcome.ok [] false
  | some c =>
    if c.max_x - c.min_x = 0 ∨ c.max_y - c.min_y = 0 then
      SpanOutcome.zeroDivision
    else
      SpanOutcome.ok
        ((validScreens env display_ids).filterMap (fun p =>
          (computeCropRect p.1 c).bind (fun cr =>
            createWithVideo fs video_path p.1 volume scale_mode (some cr))))
        (decide (0 < ((validScreens env display_ids).filterMap (fun p =>
          (computeCropRect p.1 c).bind (fun cr =>
            createWithVideo fs video_path p.1 volume scale_mode (some cr)))).length))

/-- `SPVideoWallpaperManager.__start_individual_wallpapers`
(video_wallpaper_window.py lines 447-483): for each `(video_path, display_id)`
pair, an out-of-range index falls back to the main screen (lines 465-467);
the window is created with `crop_rect = None`, and the result is
`success_count > 0`. -/
def start_individual_wallpapers (fs : FS) (env : Env)
    (video_paths : List String) (display_ids : List Nat) (volume : ℚ)
    (scale_mode : String) : List SPWindow × Bool :=
  let windows := (video_paths.zip display_ids).filterMap (fun pd =>
    let screen := (env.screens[pd.2]?).getD env.main
    createWithVideo fs pd.1 screen volume scale_mode none)
  (windows, decide (0 < windows.length))

/-- The spanning decision of `startWallpaperWithPaths_displayIDs_volume_scaleMode_`
(video_wallpaper_window.py line 325):
`is_spanning = len(set(video_paths)) == 1 and len(video_paths) > 1`. -/
def is_spanning (video_paths : List String) : Bool :=
  decide (video_paths.dedup.length = 1) && decide (1 < video_paths.length)

/-- `SPVideoWallpaperManager.startWallpaperWithPaths_displayIDs_volume_scaleMode_`
(video_wallpaper_window.py lines 304-334): after `stopAllWallpapers` (the
previous session is replaced by the returned windows), dispatch on the
spanning decision. -/
def startWallpaperWithPaths (fs : FS) (env : Env)
    (video_paths : List String) (display_ids : List Nat) (volume : ℚ)
    (scale_mode : String) : SpanOutcome :=
  if is_spanning video_paths then
    start_spanned_wallpaper fs env (video_paths.headD "") display_ids volume
      scale_mode
  else
    let r := start_individual_wallpapers fs env video_paths display_ids volume
      scale_mode
    SpanOutcome.ok r.1 r.2

/-- Mutable engine/manager state visible to the claims: the tracked daemon
pids (`VideoEngine.daemon_pids`) and the manager's window list
(`SPVideoWallpaperManager.windows`, the live session). -/
structure VideoEngineState where
  daemon_pids : List Nat
  session : List SPWindow
deriving DecidableEq

/-- Result of `VideoEngine.start_video_wallpaper` (video_engine.py
lines 86-128).  The source logs and returns on each failure; the
constructors name the spec's error taxonomy for those exits. -/
inductive StartResult where
  | arityMismatch
  | videoNotFound (path : String)
  | zeroDivision
  | started (success : Bool)
deriving DecidableEq

/-- The per-video loop of `start_video_wallpaper` (video_engine.py
lines 109-115): in input order, check `os.path.exists(video_path)` — a
missing video aborts the whole call (`return`) — otherwise run
`get_or_generate_static_frame` (its result is discarded).  Returns the first
missing path, if any, and the file system after the cache work performed up
to that point. -/
def ensure_static_frames (gen : String → Bool) (cacheDir : String) :
    FS → List String → Option String × FS
  | fs, [] => (none, fs)
  | fs, p :: ps =>
    if fs.pathExists p = false then (some p, fs)
    else
      let r := get_or_generate_static_frame gen cacheDir fs p
      ensure_static_frames gen cacheDir r.2.1 ps

/-- `VideoEngine.start_video_wallpaper` (video_engine.py lines 86-128):
(1) length mismatch between `video_paths` and `display_ids` logs and returns
before anything else (lines 94-98); (2) `stop_video_wallpapers()` tears the
current session down (line 101); (3) the static-frame loop aborts on the
first missing video (lines 109-115); (4) otherwise the manager start builds
the new session.  `volume`/`scale_mode` stand for the values the source reads
from `NSUserDefaults`. -/
def start_video_wallpaper (gen : String → Bool) (cacheDir : String)
    (env : Env) (fs : FS) (st : VideoEngineState) (video_paths : List String)
    (display_ids : List Nat) (volume : ℚ) (scale_mode : String) :
    StartResult × VideoEngineState × FS :=
  if video_paths.length ≠ display_ids.length then
    (StartResult.arityMismatch, st, fs)
  else
    let st1 : VideoEngineState := { st with session := [] }
    let r := ensure_static_frames gen cacheDir fs video_paths
    match r.1 with
    | some p => (StartResult.videoNotFound p, st1, r.2)
    | none =>
      match startWallpaperWithPaths r.2 env video_paths display_ids volume
          scale_mode with
      | SpanOutcome.zeroDivision => (StartResult.zeroDivision, st1, r.2)
      | SpanOutcome.ok ws ok => (StartResult.started ok, { st1 with session := ws }, r.2)

/-- Effects emitted by `kill_all_daemons`, in order. -/
inductive KillEffect where
  | broadcastTerminate
  | sigterm (pid : Nat)
deriving DecidableEq

/-- Outcome of one `os.kill(pid, SIGTERM)` attempt. -/
inductive KillOutcome where
  | ok
  | processLookupError
  | otherError
deriving DecidableEq

/-- What `VideoEngine.kill_all_daemons` (video_engine.py lines 299-315)
observably does: the effect sequence and the pids whose kill raised an
exception other than `ProcessLookupError` (those are logged; a
`ProcessLookupError` is passed over silently). -/
structure KillLog where
  effects : List KillEffect
  errorsLogged : List Nat
deriving DecidableEq

/-- `VideoEngine.kill_all_daemons` (video_engine.py lines 299-315):
send the terminate notification first, then `os.kill` each tracked pid in
order inside a try/except — `ProcessLookupError` is ignored, any other
exception is logged — and finally `daemon_pids.clear()` unconditionally.
`killRes` is the oracle for each kill attempt's outcome. -/
def kill_all_daemons (killRes : Nat → KillOutcome)
    (st : VideoEngineState) : KillLog × VideoEngineState :=
  ({ effects := KillEffect.broadcastTerminate ::
        st.daemon_pids.map KillEffect.sigterm,
     errorsLogged := st.daemon_pids.filter
        (fun p => killRes p = KillOutcome.otherError) },
   { st with daemon_pids := [] })

/-- The nil-or-not state of an `SPVideoWallpaperWindow`'s four attributes,
as set by `init` (all `None`, video_wallpaper_window.py lines 58-70) and
inspected by `cleanup`. -/
structure SPWindowState where
  window : Bool
  player : Bool
  player_layer : Bool
  looper : Bool
deriving DecidableEq

/-- The state `init` leaves: every attribute `None`
(video_wallpaper_window.py lines 64-67); also the state after any
`cleanup`. -/
def initWindowState : SPWindowState :=
  ⟨false, false, false, false⟩

/-- Effects emitted by `cleanup`, in order. -/
inductive CleanupEffect where
  | pausePlayer
  | removeLayer
  | closeWindow
deriving DecidableEq

/-- `SPVideoWallpaperWindow.cleanup` (video_wallpaper_window.py
lines 237-276): pause the player if present, remove the layer if both layer
and window are present, close the window if present, then set all four
attributes to `None`.  Returns the state afterwards and the emitted
effects. -/
def cleanup (s : SPWindowState) : SPWindowState × List CleanupEffect :=
  ((initWindowState),
   (if s.player then [CleanupEffect.pausePlayer] else []) ++
   (if s.player_layer && s.window then [CleanupEffect.removeLayer] else []) ++
   (if s.window then [CleanupEffect.closeWindow] else []))

/-- `v` is the exact minimum of the list of values `vals`: attained and a
lower bound. -/
def IsListMin (v : ℚ) (vals : List ℚ) : Prop :=
  v ∈ vals ∧ ∀ q ∈ vals, v ≤ q

/-- `v` is the exact maximum of the list of values `vals`: attained and an
upper bound. -/
def IsListMax (v : ℚ) (vals : List ℚ) : Prop :=
  v ∈ vals ∧ ∀ q ∈ vals, q ≤ v

theorem foldMin_le_init (g : Frame → ℚ) (l : List Frame) (a : ℚ) :
    foldMin g a l ≤ a := by
  induction l generalizing a with
  | nil => exact le_refl a
  | cons x xs ih =>
    exact le_trans (ih (min a (g x))) (min_le_left a (g x))

theorem foldMin_le_mem (g : Frame → ℚ) (l : List Frame) (a : ℚ)
    (fr : Frame) (h : fr ∈ l) : foldMin g a l ≤ g fr := by
  induction l generalizing a with
  | nil => cases h
  | cons x xs ih =>
    rcases List.mem_cons.mp h with h1 | h2
    · subst h1
      exact le_trans (foldMin_le_init g xs (min a (g fr)))
        (min_le_right a (g fr))
    · exact ih (min a (g x)) h2

theorem foldMin_attained (g : Frame → ℚ) (l : List Frame) (a : ℚ) :
    foldMin g a l = a ∨ ∃ fr ∈ l, foldMin g a l = g fr := by
  induction l generalizing a with
  | nil => exact Or.inl rfl
  | cons x xs ih =>
    rcases ih (min a (g x)) with h | ⟨fr, hm, he⟩
    · rcases min_choice a (g x) with hc | hc
      · exact Or.inl (by rw [show foldMin g a (x :: xs) = foldMin g (min a (g x)) xs from rfl, h, hc])
      · exact Or.inr ⟨x, List.mem_cons_self x xs,
          by rw [show foldMin g a (x :: xs) = foldMin g (min a (g x)) xs from rfl, h, hc]⟩
    · exact Or.inr ⟨fr, List.mem_cons_of_mem x hm, he⟩

theorem foldMax_init_le (g : Frame → ℚ) (l : List Frame) (a : ℚ) :
    a ≤ foldMax g a l := by
  induction l generalizing a with
  | nil => exact le_refl a
  | cons x xs ih =>
    exact le_trans (le_max_left a (g x)) (ih (max a (g x)))

theorem foldMax_mem_le (g : Frame → ℚ) (l : List Frame) (a : ℚ)
    (fr : Frame) (h : fr ∈ l) : g fr ≤ foldMax g a l := by
  induction l generalizing a with
  | nil => cases h
  | cons x xs ih =>
    rcases List.mem_cons.mp h with h1 | h2
    · subst h1
      exact le_trans (le_max_right a (g fr))
        (foldMax_init_le g xs (max a (g fr)))
    · exact ih (max a (g x)) h2

theorem foldMax_attained (g : Frame → ℚ) (l : List Frame) (a : ℚ) :
    foldMax g a l = a ∨ ∃ fr ∈ l, foldMax g a l = g fr := by
  induction l generalizing a with
  | nil => exact Or.inl rfl
  | cons x xs ih =>
    rcases ih (max a (g x)) with h | ⟨fr, hm, he⟩
    · rcases max_choice a (g x) with hc | hc
      · exact Or.inl (by rw [show foldMax g a (x :: xs) = foldMax g (max a (g x)) xs from rfl, h, hc])
      · exact Or.inr ⟨x, List.mem_cons_self x xs,
          by rw [show foldMax g a (x :: xs) = foldMax g (max a (g x)) xs from rfl, h, hc]⟩
    · exact Or.inr ⟨fr, List.mem_cons_of_mem x hm, he⟩

theorem headFoldMin_isMin (g : Frame → ℚ) (f : Frame) (fs : List Frame) :
    IsListMin (foldMin g (g f) fs) ((f :: fs).map g) := by
  constructor
  · rcases foldMin_attained g fs (g f) with h | ⟨fr, hm, he⟩
    · rw [h]; exact List.mem_map_of_mem g (List.mem_cons_self f fs)
    · rw [he]; exact List.mem_map_of_mem g (List.mem_cons_of_mem f hm)
  · intro q hq
    rcases List.mem_map.mp hq with ⟨fr, hm, rfl⟩
    rcases List.mem_cons.mp hm with h1 | h2
    · exact h1 ▸ foldMin_le_init g fs (g f)
    · exact foldMin_le_mem g fs (g f) fr h2

theorem headFoldMax_isMax (g : Frame → ℚ) (f : Frame) (fs : List Frame) :
    IsListMax (foldMax g (g f) fs) ((f :: fs).map g) := by
  constructor
  · rcases foldMax_attained g fs (g f) with h | ⟨fr, hm, he⟩
    · rw [h]; exact List.mem_map_of_mem g (List.mem_cons_self f fs)
    · rw [he]; exact List.mem_map_of_mem g (List.mem_cons_of_mem f hm)
  · intro q hq
    rcases List.mem_map.mp hq with ⟨fr, hm, rfl⟩
    rcases List.mem_cons.mp hm with h1 | h2
    · exact h1 ▸ foldMax_init_le g fs (g f)
    · exact foldMax_mem_le g fs (g f) fr h2

theorem isListMin_unique {v w : ℚ} {vals : List ℚ}
    (hv : IsListMin v vals) (hw : IsListMin w vals) : v = w :=
  le_antisymm (hv.2 w hw.1) (hw.2 v hv.1)

theorem isListMax_unique {v w : ℚ} {vals : List ℚ}
    (hv : IsListMax v vals) (hw : IsListMax w vals) : v = w :=
  le_antisymm (hw.2 v hv.1) (hv.2 w hw.1)

theorem isListMin_perm {v : ℚ} {l₁ l₂ : List ℚ} (h : l₁.Perm l₂)
    (hv : IsListMin v l₁) : IsListMin v l₂ :=
  ⟨h.mem_iff.mp hv.1, fun q hq => hv.2 q (h.mem_iff.mpr hq)⟩

theorem isListMax_perm {v : ℚ} {l₁ l₂ : List ℚ} (h : l₁.Perm l₂)
    (hv : IsListMax v l₁) : IsListMax v l₂ :=
  ⟨h.mem_iff.mp hv.1, fun q hq => hv.2 q (h.mem_iff.mpr hq)⟩

theorem computeCanvas_cons (f : Frame) (fs : List Frame) :
    computeCanvas (f :: fs) =
      some ⟨foldMin Frame.x f.x fs, foldMin Frame.y f.y fs,
            foldMax (fun fr => fr.x + fr.w) (f.x + f.w) fs,
            foldMax (fun fr => fr.y + fr.h) (f.y + f.h) fs⟩ := rfl

theorem computeCanvas_isBoundingBox (f : Frame) (fs : List Frame)
    (c : Canvas) (h : computeCanvas (f :: fs) = some c) :
    IsListMin c.min_x ((f :: fs).map Frame.x) ∧
    IsListMin c.min_y ((f :: fs).map Frame.y) ∧
    IsListMax c.max_x ((f :: fs).map (fun fr => fr.x + fr.w)) ∧
    IsListMax c.max_y ((f :: fs).map (fun fr => fr.y + fr.h)) := by
  rw [computeCanvas_cons] at h
  cases Option.some.inj h
  exact ⟨headFoldMin_isMin Frame.x f fs, headFoldMin_isMin Frame.y f fs,
         headFoldMax_isMax (fun fr => fr.x + fr.w) f fs,
         headFoldMax_isMax (fun fr => fr.y + fr.h) f fs⟩

theorem computeCanvas_perm {l₁ l₂ : List Frame} (h : l₁.Perm l₂) :
    computeCanvas l₁ = computeCanvas l₂ := by
  cases l₁ with
  | nil =>
    rw [← h.nil_eq]
  | cons f fs =>
    cases l₂ with
    | nil => exact absurd h.symm.nil_eq (by simp)
    | cons f2 fs2 =>
      obtain ⟨c1, h1⟩ : ∃ c, computeCanvas (f :: fs) = some c :=
        ⟨_, computeCanvas_cons f fs⟩
      obtain ⟨c2, h2⟩ : ∃ c, computeCanvas (f2 :: fs2) = some c :=
        ⟨_, computeCanvas_cons f2 fs2⟩
      obtain ⟨a1, b1, m1, n1⟩ := computeCanvas_isBoundingBox f fs c1 h1
      obtain ⟨a2, b2, m2, n2⟩ := computeCanvas_isBoundingBox f2 fs2 c2 h2
      rw [h1, h2]
      have e1 := isListMin_unique (isListMin_perm (h.map Frame.x) a1) a2
      have e2 := isListMin_unique (isListMin_perm (h.map Frame.y) b1) b2
      have e3 := isListMax_unique (isListMax_perm (h.map _) m1) m2
      have e4 := isListMax_unique (isListMax_perm (h.map _) n1) n2
      cases c1
      cases c2
      simp only [Option.some.injEq, Canvas.mk.injEq]
      exact ⟨e1, e2, e3, e4⟩

/-- C4: for every non-empty display list selected for spanning, the computed
canvas is the exact bounding box (min over origin x/y, max over
origin + size), independent of input order; each crop rect is
`(origin - min) / canvas extent` componentwise; and the two-display example
at `(0,0,1920,1080)` and `(1920,0,1920,1080)` yields canvas `(0,0,3840,1080)`
and crop rects `(0,0,1/2,1)` and `(1/2,0,1/2,1)`. -/
theorem spanned_canvas_is_exact_bounding_box :
    (∀ l₁ l₂ : List Frame, l₁.Perm l₂ → computeCanvas l₁ = computeCanvas l₂) ∧
    (∀ (f : Frame) (fs : List Frame) (c : Canvas),
        computeCanvas (f :: fs) = some c →
        IsListMin c.min_x ((f :: fs).map Frame.x) ∧
        IsListMin c.min_y ((f :: fs).map Frame.y) ∧
        IsListMax c.max_x ((f :: fs).map (fun fr => fr.x + fr.w)) ∧
        IsListMax c.max_y ((f :: fs).map (fun fr => fr.y + fr.h))) ∧
    (∀ (d : Frame) (c : Canvas),
        c.max_x - c.min_x ≠ 0 → c.max_y - c.min_y ≠ 0 →
        computeCropRect d c = some
          ⟨(d.x - c.min_x) / (c.max_x - c.min_x),
           (d.y - c.min_y) / (c.max_y - c.min_y),
           d.w / (c.max_x - c.min_x),
           d.h / (c.max_y - c.min_y)⟩) ∧
    computeCanvas [⟨0, 0, 1920, 1080⟩, ⟨1920, 0, 1920, 1080⟩]
      = some ⟨0, 0, 3840, 1080⟩ ∧
    computeCropRect ⟨0, 0, 1920, 1080⟩ ⟨0, 0, 3840, 1080⟩
      = some ⟨0, 0, 1/2, 1⟩ ∧
    computeCropRect ⟨1920, 0, 1920, 1080⟩ ⟨0, 0, 3840, 1080⟩
      = some ⟨1/2, 0, 1/2, 1⟩ := by
  refine ⟨fun l₁ l₂ h => computeCanvas_perm h,
          fun f fs c h => computeCanvas_isBoundingBox f fs c h,
          fun d c h1 h2 => ?_, ?_, ?_, ?_⟩
  · simp only [computeCropRect]
    rw [if_neg ?_]
    exact fun hor => hor.elim h1 h2
  · simp [computeCanvas, foldMin, foldMax, min_def, max_def]
    norm_num
  · simp only [computeCropRect]
    norm_num
  · simp only [computeCropRect]
    norm_num

/-- Witness for `spanned_canvas_is_exact_bounding_box` at concrete inputs. -/
theorem spanned_canvas_is_exact_bounding_box_witness :
    computeCanvas [(⟨1920, 0, 1920, 1080⟩ : Frame), ⟨0, 0, 1920, 1080⟩]
      = computeCanvas [(⟨0, 0, 1920, 1080⟩ : Frame), ⟨1920, 0, 1920, 1080⟩] ∧
    IsListMin (0 : ℚ)
      ([(⟨0, 0, 1920, 1080⟩ : Frame), ⟨1920, 0, 1920, 1080⟩].map Frame.x) ∧
    computeCropRect ⟨1920, 0, 1920, 1080⟩ ⟨0, 0, 3840, 1080⟩
      = some ⟨(1920 - 0) / (3840 - 0), (0 - 0) / (1080 - 0),
              1920 / (3840 - 0), 1080 / (1080 - 0)⟩ := by
  refine ⟨spanned_canvas_is_exact_bounding_box.1 _ _
            (List.Perm.swap (⟨0, 0, 1920, 1080⟩ : Frame) (⟨1920, 0, 1920, 1080⟩ : Frame) []), ?_, ?_⟩
  · exact (spanned_canvas_is_exact_bounding_box.2.1 ⟨0, 0, 1920, 1080⟩
      [⟨1920, 0, 1920, 1080⟩] ⟨0, 0, 3840, 1080⟩
      spanned_canvas_is_exact_bounding_box.2.2.2.1).1
  · exact spanned_canvas_is_exact_bounding_box.2.2.1 ⟨1920, 0, 1920, 1080⟩
      ⟨0, 0, 3840, 1080⟩ (by norm_num) (by norm_num)

/-- C2 counterexample: on a zero-extent canvas the crop computation does not
return the full-frame rect `(0,0,1,1)` — the unguarded division raises
(`none` in the model) — and a spanned start over zero-size displays
propagates the `ZeroDivisionError`. -/
theorem crop_rect_zero_canvas_counterexample :
    computeCropRect ⟨0, 0, 0, 0⟩ ⟨0, 0, 0, 0⟩ ≠ some ⟨0, 0, 1, 1⟩ ∧
    computeCropRect ⟨0, 0, 0, 0⟩ ⟨0, 0, 0, 0⟩ = none ∧
    start_spanned_wallpaper ⟨["v"]⟩ ⟨[⟨0, 0, 0, 0⟩, ⟨0, 0, 0, 0⟩], ⟨0, 0, 0, 0⟩⟩
        "v" [0, 1] 0 "fill"
      = SpanOutcome.zeroDivision := by
  refine ⟨?_, ?_, ?_⟩
  · simp [computeCropRect]
  · simp [computeCropRect]
  · simp [start_spanned_wallpaper, validScreens, computeCanvas, foldMin,
      foldMax, min_def, max_def]

/-- C2 (amended): for canvases of positive (non-zero) extent, the crop
computation divides safely and yields a crop rect; when the canvas width or
height is zero it performs the division with no `(0,0,1,1)` fallback, and
CPython raises `ZeroDivisionError` (modelled as `none`). -/
theorem crop_rect_division_behavior :
    (∀ (d : Frame) (c : Canvas),
        c.max_x - c.min_x ≠ 0 → c.max_y - c.min_y ≠ 0 →
        ∃ r : CropRect, computeCropRect d c = some r) ∧
    (∀ (d : Frame) (c : Canvas),
        c.max_x - c.min_x = 0 ∨ c.max_y - c.min_y = 0 →
        computeCropRect d c = none) := by
  constructor
  · intro d c h1 h2
    refine ⟨⟨(d.x - c.min_x) / (c.max_x - c.min_x),
             (d.y - c.min_y) / (c.max_y - c.min_y),
             d.w / (c.max_x - c.min_x), d.h / (c.max_y - c.min_y)⟩, ?_⟩
    simp only [computeCropRect]
    rw [if_neg ?_]
    exact fun hor => hor.elim h1 h2
  · intro d c h
    simp only [computeCropRect]
    rw [if_pos h]

/-- Witness for `crop_rect_division_behavior` at concrete inputs. -/
theorem crop_rect_division_behavior_witness :
    (∃ r : CropRect, computeCropRect ⟨0, 0, 1920, 1080⟩ ⟨0, 0, 3840, 1080⟩
        = some r) ∧
    computeCropRect ⟨0, 0, 0, 0⟩ ⟨5, 5, 5, 9⟩ = none := by
  refine ⟨crop_rect_division_behavior.1 ⟨0, 0, 1920, 1080⟩ ⟨0, 0, 3840, 1080⟩
            (by norm_num) (by norm_num),
          crop_rect_division_behavior.2 ⟨0, 0, 0, 0⟩ ⟨5, 5, 5, 9⟩ (by norm_num)⟩

/-- C3 counterexample: for scale mode `stretch`, the daemon path picks the
plain-resize gravity, but the in-process window path still configures
aspect-fill — the scale mode is ignored there. -/
theorem scale_mode_gravity_counterexample :
    (createWithVideo ⟨["v"]⟩ "v" ⟨0, 0, 1920, 1080⟩ 0 "stretch" none).map
        SPWindow.gravity = some VideoGravity.resizeAspectFill ∧
    daemon_video_gravity "stretch" = VideoGravity.resize ∧
    VideoGravity.resizeAspectFill ≠ VideoGravity.resize := by
  refine ⟨?_, by decide, by decide⟩
  simp [createWithVideo, FS.pathExists]

/-- C3 (amended): the daemon path maps the scale mode as the spec says —
`fill` to aspect-fill, `fit` to aspect, anything else to stretch/resize —
while the in-process window path sets aspect-fill unconditionally for every
successfully created window. -/
theorem video_gravity_per_path :
    daemon_video_gravity "fill" = VideoGravity.resizeAspectFill ∧
    daemon_video_gravity "fit" = VideoGravity.resizeAspect ∧
    (∀ sm : String, sm ≠ "fill" → sm ≠ "fit" →
        daemon_video_gravity sm = VideoGravity.resize) ∧
    (∀ (fs : FS) (p : String) (scr : Frame) (v : ℚ) (sm : String)
        (cr : Option CropRect) (w : SPWindow),
        createWithVideo fs p scr v sm cr = some w →
        w.gravity = VideoGravity.resizeAspectFill) := by
  refine ⟨by decide, by decide, ?_, ?_⟩
  · intro sm h1 h2
    simp [daemon_video_gravity, h1, h2]
  · intro fs p scr v sm cr w h
    rw [createWithVideo.eq_def] at h
    split at h
    · cases h
    · cases Option.some.inj h
      rfl

/-- Witness for `video_gravity_per_path` at concrete inputs. -/
theorem video_gravity_per_path_witness :
    daemon_video_gravity "stretch" = VideoGravity.resize ∧
    (⟨"v", ⟨0, 0, 10, 10⟩, VideoGravity.resizeAspectFill, none, ⟨0, 0, 10, 10⟩,
        0⟩ : SPWindow).gravity = VideoGravity.resizeAspectFill := by
  refine ⟨video_gravity_per_path.2.2.1 "stretch" (by decide) (by decide),
          video_gravity_per_path.2.2.2 ⟨["v"]⟩ "v" ⟨0, 0, 10, 10⟩ 0 "stretch"
            none _ ?_⟩
  simp [createWithVideo, FS.pathExists]

theorem createWithVideo_some_fields {fs : FS} {p : String} {scr : Frame}
    {v : ℚ} {sm : String} {cr : Option CropRect} {w : SPWindow}
    (h : createWithVideo fs p scr v sm cr = some w) :
    w.video_path = p ∧ w.screen = scr ∧ w.crop_info = cr ∧
    w.gravity = VideoGravity.resizeAspectFill := by
  rw [createWithVideo.eq_def] at h
  split at h
  · cases h
  · cases Option.some.inj h
    exact ⟨rfl, rfl, rfl, rfl⟩

theorem createWithVideo_none_crop_eq {fs : FS} {p : String} {scr : Frame}
    {v : ℚ} {sm : String} (h : fs.pathExists p = true) :
    createWithVideo fs p scr v sm none
      = some ⟨p, scr, VideoGravity.resizeAspectFill, none, ⟨0, 0, scr.w, scr.h⟩, v⟩ := by
  rw [createWithVideo.eq_def, h]
  simp

theorem createWithVideo_isSome {fs : FS} {p : String} (scr : Frame)
    (v : ℚ) (sm : String) (cr : Option CropRect)
    (h : fs.pathExists p = true) :
    ∃ w, createWithVideo fs p scr v sm cr = some w := by
  rw [createWithVideo.eq_def, h]
  simp

theorem dedup_length_one_iff (paths : List String) :
    paths.dedup.length = 1 ↔ ∃ p, p ∈ paths ∧ ∀ q ∈ paths, q = p := by
  constructor
  · intro h
    obtain ⟨p, hp⟩ := List.length_eq_one.mp h
    refine ⟨p, ?_, ?_⟩
    · exact List.mem_dedup.mp (hp ▸ List.mem_singleton_self p)
    · intro q hq
      have hq2 : q ∈ paths.dedup := List.mem_dedup.mpr hq
      rw [hp] at hq2
      exact List.mem_singleton.mp hq2
  · rintro ⟨p, hp, hall⟩
    have h1 : p ∈ paths.dedup := List.mem_dedup.mpr hp
    have hsub : ∀ q ∈ paths.dedup, q = p :=
      fun q hq => hall q (List.mem_dedup.mp hq)
    have hnd : paths.dedup.Nodup := List.nodup_dedup paths
    cases hd : paths.dedup with
    | nil => rw [hd] at h1; cases h1
    | cons a as =>
      rw [hd] at hsub hnd
      cases as with
      | nil => simp
      | cons b bs =>
        exfalso
        have ha : a = p := hsub a (List.mem_cons_self a (b :: bs))
        have hb : b = p := hsub b (by simp)
        have hne : a ∉ b :: bs := (List.nodup_cons.mp hnd).1
        exact hne (by rw [ha, ← hb]; exact List.mem_cons_self b bs)

theorem individual_windows_cropfree (fs : FS) (env : Env)
    (paths : List String) (ids : List Nat) (v : ℚ) (sm : String) :
    ∀ w ∈ (start_individual_wallpapers fs env paths ids v sm).1,
      w.crop_info = none := by
  intro w hw
  simp only [start_individual_wallpapers] at hw
  rcases List.mem_filterMap.mp hw with ⟨pd, _, hf⟩
  exact (createWithVideo_some_fields hf).2.2.1

/-- C5: spanning mode applies iff the supplied paths contain exactly one
distinct path and more than one path (a purely data-driven decision on path
equality); otherwise the individual routine runs and every window it creates
carries `cropRect = None`. -/
theorem spanning_decision_rule :
    (∀ paths : List String, is_spanning paths = true ↔
        ((∃ p, p ∈ paths ∧ ∀ q ∈ paths, q = p) ∧ 1 < paths.length)) ∧
    (∀ (fs : FS) (env : Env) (paths : List String) (ids : List Nat) (v : ℚ)
        (sm : String), is_spanning paths = false →
        startWallpaperWithPaths fs env paths ids v sm
          = SpanOutcome.ok (start_individual_wallpapers fs env paths ids v sm).1
              (start_individual_wallpapers fs env paths ids v sm).2 ∧
        ∀ w ∈ (start_individual_wallpapers fs env paths ids v sm).1,
          w.crop_info = none) ∧
    (∀ (fs : FS) (env : Env) (paths : List String) (ids : List Nat) (v : ℚ)
        (sm : String), is_spanning paths = true →
        startWallpaperWithPaths fs env paths ids v sm
          = start_spanned_wallpaper fs env (paths.headD "") ids v sm) := by
  refine ⟨fun paths => ?_, fun fs env paths ids v sm h => ?_,
          fun fs env paths ids v sm h => ?_⟩
  · simp [is_spanning, Bool.and_eq_true, decide_eq_true_eq,
      dedup_length_one_iff]
  · exact ⟨by simp [startWallpaperWithPaths, h],
           individual_windows_cropfree fs env paths ids v sm⟩
  · simp [startWallpaperWithPaths, h]

/-- Witness for `spanning_decision_rule` at concrete inputs. -/
theorem spanning_decision_rule_witness :
    (is_spanning ["v", "v"] = true ↔
      ((∃ p, p ∈ ["v", "v"] ∧ ∀ q ∈ ["v", "v"], q = p) ∧
        1 < (["v", "v"] : List String).length)) ∧
    startWallpaperWithPaths ⟨["a", "b"]⟩ ⟨[], ⟨0, 0, 10, 10⟩⟩ ["a", "b"] [0, 1]
        0 "fill"
      = SpanOutcome.ok
          (start_individual_wallpapers ⟨["a", "b"]⟩ ⟨[], ⟨0, 0, 10, 10⟩⟩
            ["a", "b"] [0, 1] 0 "fill").1
          (start_individual_wallpapers ⟨["a", "b"]⟩ ⟨[], ⟨0, 0, 10, 10⟩⟩
            ["a", "b"] [0, 1] 0 "fill").2 ∧
    startWallpaperWithPaths ⟨["v"]⟩ ⟨[], ⟨0, 0, 10, 10⟩⟩ ["v", "v"] [0, 1]
        0 "fill"
      = start_spanned_wallpaper ⟨["v"]⟩ ⟨[], ⟨0, 0, 10, 10⟩⟩
          ((["v", "v"] : List String).headD "") [0, 1] 0 "fill" :=
  ⟨spanning_decision_rule.1 ["v", "v"],
   (spanning_decision_rule.2.1 ⟨["a", "b"]⟩ ⟨[], ⟨0, 0, 10, 10⟩⟩ ["a", "b"]
      [0, 1] 0 "fill" (by decide)).1,
   spanning_decision_rule.2.2 ⟨["v"]⟩ ⟨[], ⟨0, 0, 10, 10⟩⟩ ["v", "v"] [0, 1]
      0 "fill" (by decide)⟩

/-- C6: a start with mismatched list lengths fails with the arity check
before any work: the session (and everything else) is untouched and no
surface is created. -/
theorem arity_mismatch_aborts_untouched (gen : String → Bool)
    (cacheDir : String) (env : Env) (fs : FS) (st : VideoEngineState)
    (paths : List String) (ids : List Nat) (v : ℚ) (sm : String)
    (h : paths.length ≠ ids.length) :
    start_video_wallpaper gen cacheDir env fs st paths ids v sm
      = (StartResult.arityMismatch, st, fs) := by
  simp [start_video_wallpaper, h]

/-- Witness for `arity_mismatch_aborts_untouched`: two paths, three ids. -/
theorem arity_mismatch_aborts_untouched_witness :
    start_video_wallpaper (fun _ => false) "cache" ⟨[], ⟨0, 0, 10, 10⟩⟩
        ⟨["a", "b"]⟩
        ⟨[11], [⟨"old", ⟨0, 0, 10, 10⟩, VideoGravity.resize, none,
            ⟨0, 0, 10, 10⟩, 0⟩]⟩
        ["a", "b"] [0, 1, 2] 0 "fill"
      = (StartResult.arityMismatch,
         ⟨[11], [⟨"old", ⟨0, 0, 10, 10⟩, VideoGravity.resize, none,
            ⟨0, 0, 10, 10⟩, 0⟩]⟩,
         ⟨["a", "b"]⟩) :=
  arity_mismatch_aborts_untouched (fun _ => false) "cache"
    ⟨[], ⟨0, 0, 10, 10⟩⟩ ⟨["a", "b"]⟩ _ ["a", "b"] [0, 1, 2] 0 "fill"
    (by decide)

theorem pathExists_addFile (fs : FS) (p : String) :
    (fs.addFile p).pathExists p = true := by
  simp [FS.pathExists, FS.addFile]

/-- C7: the cache is keyed by the video's base name without extension; a warm
cache returns the cached path with zero frame-extraction invocations and no
freshness check (the oracle `gen` is never consulted); two successive calls
for the same path after a first successful (or warm) call return the
identical path and the second call extracts zero frames. -/
theorem static_frame_cache_warm_hit :
    (∀ (dir v1 v2 : String), stem v1 = stem v2 →
        static_path dir v1 = static_path dir v2) ∧
    stem "videos/clip.mp4" = "clip" ∧
    (∀ (gen : String → Bool) (dir : String) (fs : FS) (v : String),
        (get_or_generate_static_frame gen dir fs v).1 = static_path dir v ∨
        (get_or_generate_static_frame gen dir fs v).1 = "") ∧
    (∀ (gen : String → Bool) (dir : String) (fs : FS) (v : String),
        fs.pathExists (static_path dir v) = true →
        get_or_generate_static_frame gen dir fs v = (static_path dir v, fs, 0)) ∧
    (∀ (gen gen2 : String → Bool) (dir : String) (fs : FS) (v : String),
        fs.pathExists (static_path dir v) = true →
        (get_or_generate_static_frame gen2 dir
            (get_or_generate_static_frame gen dir fs v).2.1 v).1
          = (get_or_generate_static_frame gen dir fs v).1 ∧
        (get_or_generate_static_frame gen2 dir
            (get_or_generate_static_frame gen dir fs v).2.1 v).2.2 = 0) ∧
    (∀ (gen : String → Bool) (dir : String) (fs : FS) (v : String),
        gen v = true →
        get_or_generate_static_frame gen dir
            (get_or_generate_static_frame gen dir fs v).2.1 v
          = ((get_or_generate_static_frame gen dir fs v).1,
             (get_or_generate_static_frame gen dir fs v).2.1, 0)) := by
  refine ⟨fun dir v1 v2 h => by simp [static_path, h], by decide,
          fun gen dir fs v => ?_, fun gen dir fs v h => ?_,
          fun gen gen2 dir fs v h => ?_, fun gen dir fs v h => ?_⟩
  · by_cases hc : fs.pathExists (static_path dir v) = true
    · exact Or.inl (by simp [get_or_generate_static_frame, hc])
    · by_cases hg : gen v = true
      · exact Or.inl (by simp [get_or_generate_static_frame, hc, hg])
      · exact Or.inr (by simp [get_or_generate_static_frame, hc, hg])
  · simp [get_or_generate_static_frame, h]
  · have he : get_or_generate_static_frame gen dir fs v
        = (static_path dir v, fs, 0) := by
      simp [get_or_generate_static_frame, h]
    rw [he]
    simp [get_or_generate_static_frame, h]
  · by_cases hc : fs.pathExists (static_path dir v) = true
    · simp [get_or_generate_static_frame, hc]
    · simp [get_or_generate_static_frame, hc, h, pathExists_addFile]

/-- Witness for `static_frame_cache_warm_hit` on a concrete warm cache. -/
theorem static_frame_cache_warm_hit_witness :
    get_or_generate_static_frame (fun _ => false) "cache"
        ⟨["cache/clip.png", "videos/clip.mp4"]⟩ "videos/clip.mp4"
      = (static_path "cache" "videos/clip.mp4",
         ⟨["cache/clip.png", "videos/clip.mp4"]⟩, 0) ∧
    (get_or_generate_static_frame (fun _ => true) "cache"
        (get_or_generate_static_frame (fun _ => false) "cache"
          ⟨["cache/clip.png", "videos/clip.mp4"]⟩ "videos/clip.mp4").2.1
        "videos/clip.mp4").2.2 = 0 :=
  ⟨static_frame_cache_warm_hit.2.2.2.1 (fun _ => false) "cache"
     ⟨["cache/clip.png", "videos/clip.mp4"]⟩ "videos/clip.mp4" (by decide),
   (static_frame_cache_warm_hit.2.2.2.2.1 (fun _ => false) (fun _ => true)
     "cache" ⟨["cache/clip.png", "videos/clip.mp4"]⟩ "videos/clip.mp4"
     (by decide)).2⟩

/-- C8: `cleanup` is a safe, idempotent teardown: on a never-created or
already-destroyed window (all attributes `None`) it changes nothing and
emits no effect; after any cleanup the state is the all-`None` state, and a
second cleanup is a no-op. -/
theorem cleanup_idempotent_noop :
    cleanup initWindowState = (initWindowState, []) ∧
    (∀ s : SPWindowState, (cleanup s).1 = initWindowState) ∧
    (∀ s : SPWindowState, cleanup (cleanup s).1 = ((cleanup s).1, [])) :=
  ⟨rfl, fun _ => rfl, fun _ => rfl⟩

/-- C9: `kill_all_daemons` first broadcasts the terminate notification, then
sends one direct SIGTERM per tracked pid in order, treats
`ProcessLookupError` as success (not even logged), and unconditionally
leaves the pid registry empty, whatever any individual attempt did. -/
theorem kill_all_daemons_clears_registry (killRes : Nat → KillOutcome)
    (st : VideoEngineState) :
    (kill_all_daemons killRes st).1.effects
      = KillEffect.broadcastTerminate :: st.daemon_pids.map KillEffect.sigterm ∧
    (kill_all_daemons killRes st).2.daemon_pids = [] ∧
    (kill_all_daemons killRes st).2.session = st.session ∧
    (∀ p ∈ st.daemon_pids, killRes p = KillOutcome.processLookupError →
      p ∉ (kill_all_daemons killRes st).1.errorsLogged) := by
  refine ⟨rfl, rfl, rfl, fun p hp hres hmem => ?_⟩
  have h2 := (List.mem_filter.mp hmem).2
  rw [hres] at h2
  simp at h2

/-- Witness for `kill_all_daemons_clears_registry`: one pid already exited,
one alive, one failing with another error. -/
theorem kill_all_daemons_clears_registry_witness :
    (kill_all_daemons
        (fun p => if p = 5 then KillOutcome.processLookupError
          else if p = 7 then KillOutcome.otherError else KillOutcome.ok)
        ⟨[5, 7, 9], []⟩).1.effects
      = KillEffect.broadcastTerminate ::
          ([5, 7, 9].map KillEffect.sigterm) ∧
    (kill_all_daemons
        (fun p => if p = 5 then KillOutcome.processLookupError
          else if p = 7 then KillOutcome.otherError else KillOutcome.ok)
        ⟨[5, 7, 9], []⟩).2.daemon_pids = [] ∧
    5 ∉ (kill_all_daemons
        (fun p => if p = 5 then KillOutcome.processLookupError
          else if p = 7 then KillOutcome.otherError else KillOutcome.ok)
        ⟨[5, 7, 9], []⟩).1.errorsLogged := by
  have h := kill_all_daemons_clears_registry
    (fun p => if p = 5 then KillOutcome.processLookupError
      else if p = 7 then KillOutcome.otherError else KillOutcome.ok)
    ⟨[5, 7, 9], []⟩
  exact ⟨h.1, h.2.1, h.2.2.2 5 (by decide) (by decide)⟩

theorem validScreens_eq_nil_iff {env : Env} {ids : List Nat} :
    validScreens env ids = [] ↔ ∀ i ∈ ids, env.screens.length ≤ i := by
  rw [validScreens, List.filterMap_eq_nil_iff]
  constructor
  · intro h i hi
    have := h i hi
    rcases he : env.screens[i]? with _ | s
    · exact List.getElem?_eq_none_iff.mp he
    · rw [he] at this
      cases this
  · intro h i hi
    rw [List.getElem?_eq_none (h i hi)]
    rfl

theorem computeCanvas_isSome (f : Frame) (fs : List Frame) :
    ∃ c, computeCanvas (f :: fs) = some c :=
  ⟨_, rfl⟩

theorem spanned_all_out_of_range (fs : FS) (env : Env) (video : String)
    (ids : List Nat) (v : ℚ) (sm : String)
    (h : ∀ i ∈ ids, env.screens.length ≤ i) :
    start_spanned_wallpaper fs env video ids v sm = SpanOutcome.ok [] false := by
  have hvs : validScreens env ids = [] := validScreens_eq_nil_iff.mpr h
  rw [start_spanned_wallpaper.eq_def, hvs]
  rfl

theorem spanned_failure_iff_all_out_of_range (fs : FS) (env : Env)
    (video : String) (ids : List Nat) (v : ℚ) (sm : String)
    (ws : List SPWindow) (b : Bool) (hvid : fs.pathExists video = true)
    (h : start_spanned_wallpaper fs env video ids v sm = SpanOutcome.ok ws b) :
    b = false ↔ ∀ i ∈ ids, env.screens.length ≤ i := by
  rw [start_spanned_wallpaper.eq_def] at h
  cases hvs : validScreens env ids with
  | nil =>
    rw [hvs] at h
    have hb : b = false := by
      cases h
      rfl
    subst hb
    exact iff_of_true rfl (validScreens_eq_nil_iff.mp hvs)
  | cons s rest =>
    rw [hvs] at h
    obtain ⟨c, hc⟩ : ∃ c, computeCanvas ((s :: rest).map Prod.fst) = some c := by
      rw [List.map_cons]
      exact computeCanvas_isSome _ _
    simp only [hc] at h
    by_cases hz : c.max_x - c.min_x = 0 ∨ c.max_y - c.min_y = 0
    · rw [if_pos hz] at h
      cases h
    · rw [if_neg hz] at h
      have hcr : computeCropRect s.1 c = some
          ⟨(s.1.x - c.min_x) / (c.max_x - c.min_x),
           (s.1.y - c.min_y) / (c.max_y - c.min_y),
           s.1.w / (c.max_x - c.min_x), s.1.h / (c.max_y - c.min_y)⟩ := by
        simp only [computeCropRect]
        rw [if_neg hz]
      obtain ⟨w, hw⟩ := createWithVideo_isSome s.1 v sm
        (some ⟨(s.1.x - c.min_x) / (c.max_x - c.min_x),
           (s.1.y - c.min_y) / (c.max_y - c.min_y),
           s.1.w / (c.max_x - c.min_x), s.1.h / (c.max_y - c.min_y)⟩) hvid
      have hhead : (fun p => (computeCropRect p.1 c).bind (fun cr =>
          createWithVideo fs video p.1 v sm (some cr))) s = some w := by
        simp only [hcr, Option.bind_some]
        exact hw
      have hmem : w ∈ List.filterMap (fun p => (computeCropRect p.1 c).bind
          (fun cr => createWithVideo fs video p.1 v sm (some cr))) (s :: rest) :=
        List.mem_filterMap.mpr ⟨s, List.mem_cons_self s rest, hhead⟩
      have hpos : 0 < (List.filterMap (fun p => (computeCropRect p.1 c).bind
          (fun cr => createWithVideo fs video p.1 v sm (some cr)))
          (s :: rest)).length :=
        List.length_pos.mpr (List.ne_nil_of_mem hmem)
      have hb : b = true := by
        cases h
        simpa using hpos
      constructor
      · intro hfalse
        rw [hb] at hfalse
        cases hfalse
      · intro hall
        exact absurd (validScreens_eq_nil_iff.mpr hall) (by rw [hvs]; simp)

/-- C10: out-of-range display indices are handled asymmetrically. In spanning
mode each out-of-range index is silently skipped (it contributes neither a
screen nor canvas input), and when the video exists the spanned start
reports failure exactly when every supplied index is out of range; in
individual mode the same out-of-range index falls back to the main screen
and a (crop-free, aspect-fill) surface is still created for it. -/
theorem out_of_range_display_asymmetry :
    (∀ (env : Env) (ids1 ids2 : List Nat) (i : Nat),
        env.screens.length ≤ i →
        validScreens env (ids1 ++ i :: ids2) = validScreens env (ids1 ++ ids2)) ∧
    (∀ (fs : FS) (env : Env) (video : String) (ids : List Nat) (v : ℚ)
        (sm : String), (∀ i ∈ ids, env.screens.length ≤ i) →
        start_spanned_wallpaper fs env video ids v sm
          = SpanOutcome.ok [] false) ∧
    (∀ (fs : FS) (env : Env) (video : String) (ids : List Nat) (v : ℚ)
        (sm : String) (ws : List SPWindow) (b : Bool),
        fs.pathExists video = true →
        start_spanned_wallpaper fs env video ids v sm = SpanOutcome.ok ws b →
        (b = false ↔ ∀ i ∈ ids, env.screens.length ≤ i)) ∧
    (∀ (fs : FS) (env : Env) (paths : List String) (ids : List Nat) (v : ℚ)
        (sm : String) (p : String) (i : Nat),
        (p, i) ∈ paths.zip ids → env.screens.length ≤ i →
        fs.pathExists p = true →
        (⟨p, env.main, VideoGravity.resizeAspectFill, none,
          ⟨0, 0, env.main.w, env.main.h⟩, v⟩ : SPWindow)
          ∈ (start_individual_wallpapers fs env paths ids v sm).1) := by
  refine ⟨fun env ids1 ids2 i h => ?_, spanned_all_out_of_range,
          spanned_failure_iff_all_out_of_range,
          fun fs env paths ids v sm p i hmem hoor hp => ?_⟩
  · simp [validScreens, List.filterMap_append, List.filterMap_cons,
      List.getElem?_eq_none h]
  · simp only [start_individual_wallpapers]
    refine List.mem_filterMap.mpr ⟨(p, i), hmem, ?_⟩
    have hnone : env.screens[i]? = none := List.getElem?_eq_none hoor
    simp only [hnone, Option.getD_none]
    exact createWithVideo_none_crop_eq hp

/-- Witness for `out_of_range_display_asymmetry` at concrete inputs. -/
theorem out_of_range_display_asymmetry_witness :
    validScreens ⟨[⟨0, 0, 10, 10⟩], ⟨0, 0, 10, 10⟩⟩ ([0] ++ 5 :: [])
      = validScreens ⟨[⟨0, 0, 10, 10⟩], ⟨0, 0, 10, 10⟩⟩ ([0] ++ []) ∧
    start_spanned_wallpaper ⟨["v"]⟩ ⟨[⟨0, 0, 10, 10⟩], ⟨0, 0, 10, 10⟩⟩ "v"
        [3, 4] 0 "fill" = SpanOutcome.ok [] false ∧
    ((false = false) ↔ ∀ i ∈ [3, 4],
        (⟨[⟨0, 0, 10, 10⟩], ⟨0, 0, 10, 10⟩⟩ : Env).screens.length ≤ i) ∧
    (⟨"v", ⟨0, 0, 10, 10⟩, VideoGravity.resizeAspectFill, none,
        ⟨0, 0, 10, 10⟩, 0⟩ : SPWindow)
      ∈ (start_individual_wallpapers ⟨["v"]⟩
          ⟨[⟨0, 0, 10, 10⟩], ⟨0, 0, 10, 10⟩⟩ ["v"] [5] 0 "fill").1 := by
  refine ⟨out_of_range_display_asymmetry.1 ⟨[⟨0, 0, 10, 10⟩], ⟨0, 0, 10, 10⟩⟩
            [0] [] 5 (by decide),
          out_of_range_display_asymmetry.2.1 ⟨["v"]⟩
            ⟨[⟨0, 0, 10, 10⟩], ⟨0, 0, 10, 10⟩⟩ "v" [3, 4] 0 "fill"
            (by decide),
          out_of_range_display_asymmetry.2.2.1 ⟨["v"]⟩
            ⟨[⟨0, 0, 10, 10⟩], ⟨0, 0, 10, 10⟩⟩ "v" [3, 4] 0 "fill" [] false
            (by decide)
            (out_of_range_display_asymmetry.2.1 ⟨["v"]⟩
              ⟨[⟨0, 0, 10, 10⟩], ⟨0, 0, 10, 10⟩⟩ "v" [3, 4] 0 "fill"
              (by decide)),
          out_of_range_display_asymmetry.2.2.2 ⟨["v"]⟩
            ⟨[⟨0, 0, 10, 10⟩], ⟨0, 0, 10, 10⟩⟩ ["v"] [5] 0 "fill" "v" 5
            (by decide) (by decide) (by decide)⟩

theorem pathExists_addFile_ne {fs : FS} {p q : String} (h : q ≠ p) :
    (fs.addFile p).pathExists q = fs.pathExists q := by
  simp [FS.pathExists, FS.addFile, h]

theorem get_or_generate_fs_cases (gen : String → Bool) (dir : String)
    (fs : FS) (v : String) :
    (get_or_generate_static_frame gen dir fs v).2.1 = fs ∨
    (get_or_generate_static_frame gen dir fs v).2.1
      = fs.addFile (static_path dir v) := by
  by_cases hc : fs.pathExists (static_path dir v) = true
  · exact Or.inl (by simp [get_or_generate_static_frame, hc])
  · by_cases hg : gen v = true
    · exact Or.inr (by simp [get_or_generate_static_frame, hc, hg])
    · exact Or.inl (by simp [get_or_generate_static_frame, hc, hg])

theorem createWithVideo_none_of_missing {fs : FS} {p : String} (scr : Frame)
    (v : ℚ) (sm : String) (cr : Option CropRect)
    (h : fs.pathExists p = false) :
    createWithVideo fs p scr v sm cr = none := by
  rw [createWithVideo.eq_def, h]
  simp

/-- C1 counterexample: an engine-level `start_video_wallpaper` with one
non-existent video (`"b"`) among three requested displays does not succeed
and creates no surfaces at all — it tears the previous session down, aborts
at the missing video, and leaves the session empty. -/
theorem engine_start_missing_video_counterexample :
    start_video_wallpaper (fun _ => false) "cache"
        ⟨[⟨0, 0, 10, 10⟩, ⟨10, 0, 10, 10⟩, ⟨20, 0, 10, 10⟩], ⟨0, 0, 10, 10⟩⟩
        ⟨["a", "c"]⟩
        ⟨[], [⟨"old", ⟨0, 0, 10, 10⟩, VideoGravity.resize, none,
          ⟨0, 0, 10, 10⟩, 0⟩]⟩
        ["a", "b", "c"] [0, 1, 2] 0 "fill"
      = (StartResult.videoNotFound "b", ⟨[], []⟩, ⟨["a", "c"]⟩) := by decide

/-- C1 (amended): the engine-level `start()` aborts on the first missing
video — after the previous session has been torn down and before any surface
is created, so no surfaces exist afterwards; per-display isolation holds one
level down only: the manager start, invoked directly with the same three
requests, skips the missing video, creates crop-free surfaces for the two
displays whose videos exist, and succeeds overall. -/
theorem missing_video_isolation_manager_level (gen : String → Bool)
    (cacheDir : String) (env : Env) (fs : FS) (st : VideoEngineState)
    (v : ℚ) (sm : String) (p₁ p₂ p₃ : String) (i₁ i₂ i₃ : Nat)
    (h1 : fs.pathExists p₁ = true) (h2 : fs.pathExists p₂ = false)
    (h3 : fs.pathExists p₃ = true) (h4 : p₂ ≠ static_path cacheDir p₁) :
    (start_video_wallpaper gen cacheDir env fs st [p₁, p₂, p₃] [i₁, i₂, i₃]
        v sm).1 = StartResult.videoNotFound p₂ ∧
    (start_video_wallpaper gen cacheDir env fs st [p₁, p₂, p₃] [i₁, i₂, i₃]
        v sm).2.1.session = [] ∧
    ∃ w₁ w₃ : SPWindow,
      startWallpaperWithPaths fs env [p₁, p₂, p₃] [i₁, i₂, i₃] v sm
        = SpanOutcome.ok [w₁, w₃] true ∧
      w₁.video_path = p₁ ∧ w₃.video_path = p₃ ∧
      w₁.crop_info = none ∧ w₃.crop_info = none := by
  have hfs2 : (get_or_generate_static_frame gen cacheDir fs p₁).2.1.pathExists
      p₂ = false := by
    rcases get_or_generate_fs_cases gen cacheDir fs p₁ with he | he
    · rw [he]; exact h2
    · rw [he, pathExists_addFile_ne h4]; exact h2
  have hens : ensure_static_frames gen cacheDir fs [p₁, p₂, p₃]
      = (some p₂, (get_or_generate_static_frame gen cacheDir fs p₁).2.1) := by
    simp [ensure_static_frames, h1, hfs2]
  have hne12 : p₁ ≠ p₂ := by
    intro he
    rw [he, h2] at h1
    cases h1
  have hspan : is_spanning [p₁, p₂, p₃] = false := by
    cases hb : is_spanning [p₁, p₂, p₃] with
    | false => rfl
    | true =>
      exfalso
      have htrue : ([p₁, p₂, p₃] : List String).dedup.length = 1 := by
        simpa [is_spanning] using (Bool.and_eq_true _ _).mp hb |>.1
      obtain ⟨p, _, hall⟩ := (dedup_length_one_iff _).mp htrue
      exact hne12 ((hall p₁ (by simp)).trans (hall p₂ (by simp)).symm)
  refine ⟨?_, ?_, ?_⟩
  · simp [start_video_wallpaper, hens]
  · simp [start_video_wallpaper, hens]
  · refine ⟨⟨p₁, (env.screens[i₁]?).getD env.main,
        VideoGravity.resizeAspectFill, none,
        ⟨0, 0, ((env.screens[i₁]?).getD env.main).w,
          ((env.screens[i₁]?).getD env.main).h⟩, v⟩,
      ⟨p₃, (env.screens[i₃]?).getD env.main,
        VideoGravity.resizeAspectFill, none,
        ⟨0, 0, ((env.screens[i₃]?).getD env.main).w,
          ((env.screens[i₃]?).getD env.main).h⟩, v⟩,
      ?_, rfl, rfl, rfl, rfl⟩
    simp only [startWallpaperWithPaths, hspan, Bool.false_eq_true, if_false]
    simp [start_individual_wallpapers, createWithVideo_none_crop_eq h1,
      createWithVideo_none_crop_eq h3, createWithVideo_none_of_missing _ v sm
        none h2]

/-- Witness for `missing_video_isolation_manager_level` at concrete inputs. -/
theorem missing_video_isolation_manager_level_witness :
    (start_video_wallpaper (fun _ => true) "cache"
        ⟨[], ⟨0, 0, 10, 10⟩⟩ ⟨["a", "c"]⟩ ⟨[], []⟩
        ["a", "b", "c"] [0, 1, 2] 0 "fill").1
      = StartResult.videoNotFound "b" ∧
    (start_video_wallpaper (fun _ => true) "cache"
        ⟨[], ⟨0, 0, 10, 10⟩⟩ ⟨["a", "c"]⟩ ⟨[], []⟩
        ["a", "b", "c"] [0, 1, 2] 0 "fill").2.1.session = [] ∧
    ∃ w₁ w₃ : SPWindow,
      startWallpaperWithPaths ⟨["a", "c"]⟩ ⟨[], ⟨0, 0, 10, 10⟩⟩
          ["a", "b", "c"] [0, 1, 2] 0 "fill"
        = SpanOutcome.ok [w₁, w₃] true ∧
      w₁.video_path = "a" ∧ w₃.video_path = "c" ∧
      w₁.crop_info = none ∧ w₃.crop_info = none :=
  missing_video_isolation_manager_level (fun _ => true) "cache"
    ⟨[], ⟨0, 0, 10, 10⟩⟩ ⟨["a", "c"]⟩ ⟨[], []⟩ 0 "fill" "a" "b" "c" 0 1 2
    (by decide) (by decide) (by decide) (by decide)
